import Mathlib

/-!
Shallow embedding of the project-tracker server's business logic.

Sources embedded here (paths relative to the repository root):
- `src/unnamed/part_007` — controllers/projectController.ts: `createProject`,
  `patchProject`, `deleteProject`, `createAssignment`, `importBackup`,
  `decodeFilename`.
- `src/server/src/index.ts` — the `POST /api/projects/:id/contacts` handler
  (the only handler in the repository that verifies the parent project
  before inserting a contact).
- `src/server/src/models/schemas.ts` — the zod schemas, reflected in the
  shapes of the parsed-request structures below (which fields are required,
  optional, or nullable).
- `src/server/prisma/migrations/20251102195412_init_postgres/migration.sql`
  — table shapes and the `ON DELETE CASCADE` foreign keys from `Assignment`
  and `Contact` (and, per the later migration, `ProjectFile`) to `Project`.

Modeling conventions:
- JavaScript numbers are modeled as `Nat`. All concrete values in the
  theorems are far below `2 ^ 53`, where IEEE-754 doubles are exact, and
  the quantified theorems carry an explicit `< 2 ^ 53` bound where the
  arithmetic could otherwise leave the exact range.
- Prisma update semantics for a data field: an `undefined` (absent) value
  means "leave the column unchanged"; `null` on a nullable column sets it
  to SQL NULL; a plain value overwrites the column. A zod-parsed PATCH
  body distinguishes absent keys from explicit nulls, which `FieldPatch`
  captures.
- `prisma.$transaction` is atomic: if the callback throws, the database is
  left exactly as it was before the transaction began. Handlers that wrap
  work in a transaction are modeled as returning the original state on
  failure.
-/

namespace ProjectTracker

/-- The `ListKind` enum from the Prisma schema (migration.sql). -/
inductive ListKind
  | NEGOTIATION
  | SIGNED
  | ARCHIVE
deriving DecidableEq, Repr

/-- The `ProjectStatus` enum from the Prisma schema. -/
inductive ProjectStatus
  | ACTIVE
  | ON_HOLD
  | COMPLETED
  | QUOTE_GIVEN
deriving DecidableEq, Repr

/-- The `AssignmentStatus` enum from the Prisma schema. -/
inductive AssignmentStatus
  | TODO
  | IN_PROGRESS
  | DONE
deriving DecidableEq, Repr

/-- A row of the `Project` table (business columns; the managed
`createdAt` / `updatedAt` timestamps are not modeled). Dates are modeled
as `Nat` epoch values. -/
structure Project where
  id : Nat
  name : String
  developer : Option String
  listKind : ListKind
  status : ProjectStatus
  standard : Option String
  units : Option Nat
  scopeValue : Option String
  startDate : Option Nat
  execution : Option Nat
  remaining : Option String
deriving DecidableEq, Repr

/-- A row of the `Assignment` table. -/
structure Assignment where
  id : Nat
  projectId : Nat
  title : String
  notes : Option String
  assigneeName : Option String
  dueDate : Option Nat
  status : AssignmentStatus
deriving DecidableEq, Repr

/-- A row of the `Contact` table. The `phone` column is `TEXT NOT NULL` in
the initial migration, but the `index.ts` contact handler inserts
`data.phone?.trim() || null`, so it is modeled as nullable here, matching
the later schema generation used by that handler. -/
structure Contact where
  id : Nat
  projectId : Nat
  name : String
  phone : Option String
deriving DecidableEq, Repr

/-- A row of the `ProjectFile` table (the columns the embedded handlers
touch). -/
structure ProjectFile where
  id : Nat
  projectId : Nat
  originalName : String
  storedName : String
deriving DecidableEq, Repr

/-- The relational store: one list per table plus the `SERIAL`
autoincrement counters used when inserting new rows. -/
structure DB where
  projects : List Project
  assignments : List Assignment
  contacts : List Contact
  files : List ProjectFile
  nextProjectId : Nat
  nextAssignmentId : Nat
  nextContactId : Nat
deriving DecidableEq, Repr

/-- The empty database with all counters at 1 (Postgres `SERIAL` starts
at 1). -/
def DB.empty : DB :=
  { projects := [], assignments := [], contacts := [], files := []
    nextProjectId := 1, nextAssignmentId := 1, nextContactId := 1 }

/-- `prisma.project.findUnique({ where: { id } })`. -/
def findProject (db : DB) (id : Nat) : Option Project :=
  db.projects.find? (fun p => p.id == id)

-- ================================================================
-- Derived-remaining arithmetic
-- ================================================================

/-- `Number(s.replace(/[^0-9]/g, ""))`: strip every non-digit character,
then parse the remaining digit string. `Number("")` is `0` in JavaScript,
which the empty fold reproduces. Exact for values below `2 ^ 53`. -/
def parseDigits (s : String) : Nat :=
  s.data.foldl (fun acc c => if c.isDigit then acc * 10 + (c.toNat - 48) else acc) 0

/-- `Math.round(num / den)` for nonnegative integer `num` and positive
integer `den`, computed exactly: `round(x) = floor(x + 1/2)`, and
`floor(num/den + 1/2) = (2*num + den) / (2*den)` in integer division.
(JavaScript `Math.round` rounds halves up, as floor of `x + 0.5` does.) -/
def jsRound (num den : Nat) : Nat :=
  (2 * num + den) / (2 * den)

/-- The overflow threshold of IEEE-754 doubles, `2 ^ 1024 - 2 ^ 970`
(certified by `jsOverflowThreshold_eq`): the midpoint above the largest
finite double, at or above which round-to-nearest-even overflows to
`Infinity`. Written as a literal so that evaluation never unfolds the
large powers. -/
def jsOverflowThreshold : Nat :=
  179769313486231580793728971405303415079934132710037826936173778980444968292764750946649017977587207096330286416692887910946555547851940402630657488671505820681908902000708383676273854845817711531764475730270069855571366959622842914819860834936475292719074168444365510704342711559699508093042880177904174497792

/-- `Number.isFinite(Number(digitString))`. A digit-only string parses
to a finite double exactly when its value is below the overflow midpoint
`2 ^ 1024 - 2 ^ 970`: at or above it the parse is `Infinity` (this
happens from roughly 309-digit scopes upward). Below the midpoint the
parse is finite, though only exact below `2 ^ 53` — the theorems that
assert the exact value of a derived `remaining` therefore carry a
`< 2 ^ 53` bound. -/
def jsFiniteParse (n : Nat) : Bool := n < jsOverflowThreshold

/-- The body of the auto-calculation in `createProject` (part_007 lines
383–389): `clamped = Math.max(0, Math.min(100, e))`,
`remainingPct = 100 - clamped`,
`rem = Math.max(0, Math.round(numericScope * remainingPct / 100))`. -/
def derivedRemaining (numericScope e : Nat) : Nat :=
  let clamped := Nat.max 0 (Nat.min 100 e)
  let remainingPct := 100 - clamped
  Nat.max 0 (jsRound (numericScope * remainingPct) 100)

-- ================================================================
-- Project create (controllers/projectController.ts, part_007 373–445)
-- ================================================================

/-- The parsed `initialAssignment` object of `createProjectSchema`. -/
structure CreateAssignmentData where
  title : String
  notes : Option String
  assigneeName : Option String
  dueDate : Option Nat
deriving DecidableEq, Repr

/-- The parsed `initialContacts` entries of `createProjectSchema`
(`name` min 1, `phone` min 3 — both required strings). -/
structure CreateContactData where
  name : String
  phone : String
deriving DecidableEq, Repr

/-- The output of `createProjectSchema.parse`: `name` required;
`listKind` / `status` always present (zod `.default(...)`); all other
scalars optional (absent ⇒ `none`); optional nested children. The create
schema has no nullable scalar fields, so `Option` is enough. -/
structure CreateData where
  name : String
  developer : Option String
  listKind : ListKind
  status : ProjectStatus
  standard : Option String
  units : Option Nat
  scopeValue : Option String
  startDate : Option Nat
  execution : Option Nat
  remaining : Option String
  initialAssignment : Option CreateAssignmentData
  initialContacts : Option (List CreateContactData)
deriving DecidableEq, Repr

/-- Lines 377–391 of part_007: if `remaining == null` and `scopeValue` is
a string and `execution` is a number, derive `remaining`. The
`Number.isFinite(numericScope)` test is always true in the exact model
(a stripped digit string below `2 ^ 53` always parses to a finite value;
`Number("")` is `0`, not `NaN`). -/
def deriveCreateRemaining (data : CreateData) : CreateData :=
  match data.remaining, data.scopeValue, data.execution with
  | none, some s, some e =>
      { data with remaining := some (toString (derivedRemaining (parseDigits s) e)) }
  | _, _, _ => data

/-- JavaScript `str.trim() || undefined`: trim, and turn the empty (falsy)
result into `undefined`. -/
def trimOrNone (s : String) : Option String :=
  if s.trim = "" then none else some s.trim

/-- The transaction body of `createProject` (part_007 394–438): insert the
project row, then the optional initial assignment, then the optional
initial contacts (`createMany` with trimmed fields). Every write is inside
one `prisma.$transaction`; with validated input none of the inserts can
fail, so the model returns the committed state directly. -/
def createProject (db : DB) (data0 : CreateData) : Project × DB :=
  let data := deriveCreateRemaining data0
  let project : Project :=
    { id := db.nextProjectId
      name := data.name
      developer := data.developer
      listKind := data.listKind
      status := data.status
      standard := data.standard
      units := data.units
      scopeValue := data.scopeValue
      startDate := data.startDate
      execution := data.execution
      remaining := data.remaining }
  let db1 : DB := { db with
    projects := db.projects ++ [project]
    nextProjectId := db.nextProjectId + 1 }
  let db2 : DB :=
    match data.initialAssignment with
    | some a =>
        { db1 with
          assignments := db1.assignments ++
            [{ id := db1.nextAssignmentId
               projectId := project.id
               title := a.title
               notes := a.notes
               assigneeName := match a.assigneeName with
                 | some nm => trimOrNone nm
                 | none => none
               dueDate := a.dueDate
               status := AssignmentStatus.TODO }]
          nextAssignmentId := db1.nextAssignmentId + 1 }
    | none => db1
  let db3 : DB :=
    match data.initialContacts with
    | some cs =>
        if cs.length > 0 then
          { db2 with
            contacts := db2.contacts ++
              (cs.enum.map (fun ci =>
                { id := db2.nextContactId + ci.1
                  projectId := project.id
                  name := ci.2.name.trim
                  phone := some ci.2.phone.trim : Contact }))
            nextContactId := db2.nextContactId + cs.length }
        else db2
    | none => db2
  (project, db3)

-- ================================================================
-- Project update (controllers/projectController.ts, part_007 310–355)
-- ================================================================

/-- The state of one nullable field in a zod-parsed PATCH body: the key is
absent (`undefined`), explicitly `null`, or carries a value. -/
inductive FieldPatch (α : Type)
  | absent
  | null
  | val (a : α)
deriving DecidableEq, Repr

/-- `Object.prototype.hasOwnProperty.call(data, k)`: zod keeps only keys
present in the input, so a parsed field is an own property exactly when it
is not absent. -/
def FieldPatch.isPresent {α : Type} : FieldPatch α → Bool
  | .absent => false
  | _ => true

/-- The null-to-undefined cleanup plus the Prisma update semantics, applied
to one column. Part_007 lines 340–343 build
`clean[k] = v === null ? undefined : v`, and `prisma.project.update`
leaves a column unchanged when its data value is `undefined`. Hence both
an absent key and an explicit `null` leave the stored value as it was,
and only a plain value overwrites it. -/
def FieldPatch.applyCleaned {α : Type} : FieldPatch α → Option α → Option α
  | .absent, old => old
  | .null, old => old
  | .val v, _ => some v

/-- The output of `updateProjectSchema.parse` (models/schemas.ts 44–55):
`name`, `listKind`, `status` are optional but not nullable; every other
field is `.nullable().optional()`. -/
structure UpdateData where
  name : Option String
  developer : FieldPatch String
  listKind : Option ListKind
  status : Option ProjectStatus
  standard : FieldPatch String
  units : FieldPatch Nat
  scopeValue : FieldPatch String
  startDate : FieldPatch Nat
  execution : FieldPatch Nat
  remaining : FieldPatch String
deriving DecidableEq, Repr

/-- A PATCH body with every key absent. -/
def UpdateData.emptyPatch : UpdateData :=
  { name := none, developer := .absent, listKind := none, status := none
    standard := .absent, units := .absent, scopeValue := .absent
    startDate := .absent, execution := .absent, remaining := .absent }

/-- Lines 317–337 of part_007: when `scopeValue` or `execution` is an own
property of the patch and `data.remaining === undefined`, set
`scope = typeof data.scopeValue === "string" ? data.scopeValue : undefined`
and `e = data.execution == null ? undefined : data.execution`; only when
`scope` is truthy (a non-empty string) and `e` is a number is the scope
parsed, and only when `Number.isFinite(numericScope)` holds
(`jsFiniteParse`) is `data.remaining` overwritten with the derived
string — a scope parsing to `Infinity` skips the recomputation. -/
def derivedPatchRemainingField (data : UpdateData) : FieldPatch String :=
  if (data.scopeValue.isPresent || data.execution.isPresent)
      && !data.remaining.isPresent then
    let scope : Option String :=
      match data.scopeValue with
      | .val s => some s
      | _ => none
    let e : Option Nat :=
      match data.execution with
      | .val n => some n
      | _ => none
    match scope, e with
    | some s, some n =>
        if s = "" then data.remaining
        else
          let numericScope := parseDigits s
          if jsFiniteParse numericScope then
            .val (toString (derivedRemaining numericScope n))
          else data.remaining
    | _, _ => data.remaining
  else data.remaining

/-- The in-place mutation `(data as any).remaining = String(rem)` of the
block above: only the `remaining` key of the parsed patch is ever
written. -/
def derivePatchRemaining (data : UpdateData) : UpdateData :=
  { data with remaining := derivedPatchRemainingField data }

/-- Apply the cleaned patch to a stored project row, column by column,
with Prisma update semantics (`FieldPatch.applyCleaned`; non-nullable
optional fields overwrite only when present). -/
def applyCleanedPatch (data : UpdateData) (p : Project) : Project :=
  { id := p.id
    name := data.name.getD p.name
    developer := data.developer.applyCleaned p.developer
    listKind := data.listKind.getD p.listKind
    status := data.status.getD p.status
    standard := data.standard.applyCleaned p.standard
    units := data.units.applyCleaned p.units
    scopeValue := data.scopeValue.applyCleaned p.scopeValue
    startDate := data.startDate.applyCleaned p.startDate
    execution := data.execution.applyCleaned p.execution
    remaining := data.remaining.applyCleaned p.remaining }

/-- `patchProject` (part_007 310–355): derive `remaining` if applicable,
clean nulls to undefined, then `prisma.project.update({ where: { id } })`.
An unknown id makes the update throw (Prisma P2025), which the handler
catches and maps to a 400 response; that failure path is `Except.error`. -/
def patchProject (db : DB) (id : Nat) (data0 : UpdateData) :
    Except Unit (Project × DB) :=
  let data := derivePatchRemaining data0
  match findProject db id with
  | none => .error ()
  | some p =>
      let updated := applyCleanedPatch data p
      .ok (updated,
        { db with projects :=
            db.projects.map (fun q => if q.id == id then updated else q) })

-- ================================================================
-- Project delete (part_007 465–482) and the schema cascade
-- ================================================================

/-- `deleteProject` (part_007 465–482): inside one transaction, delete the
project's assignments (`assignment.deleteMany({ where: { projectId } })`),
then delete the project row itself. `Assignment_projectId_fkey`,
`Contact_projectId_fkey` and the project-file foreign key are declared
`ON DELETE CASCADE` in the migration, so deleting the project row also
removes its remaining child rows. A missing project makes
`project.delete` throw; the handler catches it and returns 400 (`none`). -/
def deleteProject (db : DB) (id : Nat) : Option DB :=
  if db.projects.any (fun p => p.id == id) then
    some { db with
      projects := db.projects.filter (fun p => p.id != id)
      assignments := db.assignments.filter (fun a => a.projectId != id)
      contacts := db.contacts.filter (fun c => c.projectId != id)
      files := db.files.filter (fun f => f.projectId != id) }
  else none

-- ================================================================
-- Child creation: contacts (src/server/src/index.ts 190–214) and
-- assignments (part_007 495–517)
-- ================================================================

/-- Outcome of a child-create handler: a zod failure or a database error
caught by the handler (HTTP 400), the explicit parent-missing response
(HTTP 404), or a created row (HTTP 201). -/
inductive ChildOutcome
  | badRequest
  | notFound
  | created
deriving DecidableEq, Repr

/-- The raw JSON body of `POST /api/projects/:id/contacts` before zod
parsing: each field may be missing. -/
structure ContactReq where
  name : Option String
  phone : Option String
deriving DecidableEq, Repr

/-- The contact handler of `src/server/src/index.ts` lines 190–214:
parse the body (`name` min length 1, `phone` optional), then
`prisma.project.findUnique({ where: { id } })` — if the parent project
does not exist respond 404 `project_not_found` without inserting — and
only then insert the contact with `phone: data.phone?.trim() || null`. -/
def createContact (db : DB) (id : Nat) (body : ContactReq) :
    ChildOutcome × DB :=
  match body.name with
  | none => (.badRequest, db)
  | some nm =>
      if nm.length = 0 then (.badRequest, db)
      else if db.projects.any (fun p => p.id == id) then
        (.created,
          { db with
            contacts := db.contacts ++
              [{ id := db.nextContactId
                 projectId := id
                 name := nm.trim
                 phone := match body.phone with
                   | some ph => if ph.trim = "" then none else some ph.trim
                   | none => none }]
            nextContactId := db.nextContactId + 1 })
      else (.notFound, db)

/-- The raw JSON body of `POST /api/projects/:id/assignments`. -/
structure AssignmentReq where
  title : Option String
  notes : Option String
  assigneeName : Option String
  dueDate : Option Nat
deriving DecidableEq, Repr

/-- `createAssignment` (part_007 495–517): parse the body (`title` min
length 1) and immediately `prisma.assignment.create` with the URL's
project id — there is no parent-existence lookup. When no project row has
that id, the insert violates `Assignment_projectId_fkey` and throws; the
handler catches it and responds 400, never 404. -/
def createAssignment (db : DB) (id : Nat) (body : AssignmentReq) :
    ChildOutcome × DB :=
  match body.title with
  | none => (.badRequest, db)
  | some t =>
      if t.length = 0 then (.badRequest, db)
      else if db.projects.any (fun p => p.id == id) then
        (.created,
          { db with
            assignments := db.assignments ++
              [{ id := db.nextAssignmentId
                 projectId := id
                 title := t
                 notes := body.notes
                 assigneeName := match body.assigneeName with
                   | some nm => trimOrNone nm
                   | none => none
                 dueDate := body.dueDate
                 status := AssignmentStatus.TODO }]
            nextAssignmentId := db.nextAssignmentId + 1 })
      else (.badRequest, db)

-- ================================================================
-- Backup import (part_007 858–939)
-- ================================================================

/-- A raw assignment object inside a backup payload. `title` is fed to
`tx.assignment.create` as-is: a missing title violates the `NOT NULL`
column and makes the insert throw, which is the modeled failure.
`a.status ?? "TODO"` supplies the default. -/
structure RawAssignment where
  title : Option String
  assigneeName : Option String
  notes : Option String
  dueDate : Option Nat
  status : Option AssignmentStatus
deriving DecidableEq, Repr

/-- A raw contact object inside a backup payload. `importBackup` inserts
`String(c.name ?? "").trim()` and the same for `phone`, so these inserts
cannot violate `NOT NULL` and never fail. -/
structure RawContact where
  name : Option String
  phone : Option String
deriving DecidableEq, Repr

/-- A raw project object inside a backup payload, after `importBackup`
destructures away `assignments`, `contacts`, `files` (ignored), `id`,
`createdAt`, `updatedAt`. A missing `name` violates the `NOT NULL` project
column and makes `tx.project.create` throw; `listKind` and `status` fall
back to the schema defaults when absent; every other scalar is passed with
`?? null`. `assignments` / `contacts` are `none` when the key is missing
or not an array (the `Array.isArray` guards). -/
structure RawProject where
  name : Option String
  developer : Option String
  listKind : Option ListKind
  status : Option ProjectStatus
  standard : Option String
  units : Option Nat
  scopeValue : Option String
  startDate : Option Nat
  execution : Option Nat
  remaining : Option String
  assignments : Option (List RawAssignment)
  contacts : Option (List RawContact)
deriving DecidableEq, Repr

/-- The request body of `POST /api/backup` as the guard on part_007 lines
861–863 sees it: no body at all, a body whose `projects` field is missing
or not an array, or a body with a `projects` array. -/
inductive BackupReq
  | noBody
  | noProjects
  | withProjects (ps : List RawProject)
deriving DecidableEq, Repr

/-- Outcome of `importBackup`: 400 `invalid_backup_format`, 500
`failed_to_import_backup` (transaction rolled back), or success with the
`createdProjects` count. -/
inductive ImportOutcome
  | invalidFormat
  | serverError
  | ok (createdProjects : Nat)
deriving DecidableEq, Repr

/-- The per-assignment inserts of the import loop (part_007 905–918):
each `tx.assignment.create` throws when `title` is missing. -/
def insertRawAssignments (db : DB) (pid : Nat) :
    List RawAssignment → Option DB
  | [] => some db
  | a :: rest =>
      match a.title with
      | none => none
      | some t =>
          insertRawAssignments
            { db with
              assignments := db.assignments ++
                [{ id := db.nextAssignmentId
                   projectId := pid
                   title := t
                   assigneeName := a.assigneeName
                   notes := a.notes
                   dueDate := a.dueDate
                   status := a.status.getD AssignmentStatus.TODO }]
              nextAssignmentId := db.nextAssignmentId + 1 }
            pid rest

/-- The `contact.createMany` call of the import loop (part_007 920–928):
`String(c.name ?? "").trim()` and `String(c.phone ?? "").trim()`. -/
def insertRawContacts (db : DB) (pid : Nat) (cs : List RawContact) : DB :=
  { db with
    contacts := db.contacts ++
      (cs.enum.map (fun ci =>
        { id := db.nextContactId + ci.1
          projectId := pid
          name := (ci.2.name.getD "").trim
          phone := some ((ci.2.phone.getD "").trim) : Contact }))
    nextContactId := db.nextContactId + cs.length }

/-- One iteration of the import loop (part_007 877–929): create the
project row (schema defaults for `listKind` / `status`, `?? null` for the
nullable columns), then its assignments (when a non-empty array), then its
contacts. `none` models a thrown Prisma error. -/
def insertRawProject (db : DB) (p : RawProject) : Option DB :=
  match p.name with
  | none => none
  | some nm =>
      let pid := db.nextProjectId
      let db1 : DB := { db with
        projects := db.projects ++
          [{ id := pid
             name := nm
             developer := p.developer
             listKind := p.listKind.getD ListKind.NEGOTIATION
             status := p.status.getD ProjectStatus.ACTIVE
             standard := p.standard
             units := p.units
             scopeValue := p.scopeValue
             startDate := p.startDate
             execution := p.execution
             remaining := p.remaining }]
        nextProjectId := db.nextProjectId + 1 }
      let db2 : Option DB :=
        match p.assignments with
        | some as0 =>
            if as0.length > 0 then insertRawAssignments db1 pid as0
            else some db1
        | none => some db1
      match db2 with
      | none => none
      | some db2 =>
          match p.contacts with
          | some cs =>
              if cs.length > 0 then some (insertRawContacts db2 pid cs)
              else some db2
          | none => some db2

/-- The whole re-insertion loop, threading the `createdProjects` counter. -/
def insertRawProjects (db : DB) :
    List RawProject → Option (DB × Nat)
  | [] => some (db, 0)
  | p :: rest =>
      match insertRawProject db p with
      | none => none
      | some db1 =>
          match insertRawProjects db1 rest with
          | none => none
          | some (db2, n) => some (db2, n + 1)

/-- The delete phase at the start of the import transaction (part_007
869–873): `deleteMany({})` on assignments, contacts, project files and
projects. Sequences (autoincrement counters) are not reset by
`deleteMany`. -/
def clearAll (db : DB) : DB :=
  { db with projects := [], assignments := [], contacts := [], files := [] }

/-- `importBackup` (part_007 858–939): reject a missing body or a
non-array `projects` field with 400 before touching the database;
otherwise run one `prisma.$transaction` that clears all four tables and
re-inserts the payload. The transaction is atomic: if any insert throws,
every step inside it — including the delete phase — is rolled back and the
handler responds 500 with the database in its original state. -/
def importBackup (db : DB) (req : BackupReq) : ImportOutcome × DB :=
  match req with
  | .withProjects ps =>
      match insertRawProjects (clearAll db) ps with
      | some (db1, n) => (.ok n, db1)
      | none => (.serverError, db)
  | _ => (.invalidFormat, db)

-- ================================================================
-- Filename recovery (part_007 98–129)
-- ================================================================

/-- The Unicode replacement character U+FFFD. -/
def replChar : Char := '�'

/-- Whether a byte is a UTF-8 continuation byte (`0x80`–`0xBF`). -/
def isCont (b : Nat) : Bool := 0x80 ≤ b && b ≤ 0xBF

/-- Node's `latin1` encoding of one UTF-16 code unit sequence: each code
unit keeps only its low byte. A BMP code point is one code unit; an astral
code point is a surrogate pair, hence two bytes. -/
def jsLatin1Bytes (c : Char) : List Nat :=
  let n := c.toNat
  if n < 0x10000 then [n % 256]
  else
    let m := n - 0x10000
    [(0xD800 + m / 0x400) % 256, (0xDC00 + m % 0x400) % 256]

/-- WHATWG UTF-8 decoding with U+FFFD replacement, as
`Buffer.prototype.toString("utf8")` performs it: strict continuation
ranges per lead byte (rejecting overlong forms, surrogates and values
above U+10FFFF), restart at the offending byte after emitting a
replacement, and a single replacement for a sequence truncated by the end
of input. -/
def utf8Decode : List Nat → List Char
  | [] => []
  | b :: rest =>
      if b ≤ 0x7F then Char.ofNat b :: utf8Decode rest
      else if 0xC2 ≤ b && b ≤ 0xDF then
        match h1 : rest with
        | [] => [replChar]
        | c1 :: rest1 =>
            if isCont c1 then
              Char.ofNat ((b - 0xC0) * 0x40 + (c1 - 0x80)) :: utf8Decode rest1
            else replChar :: utf8Decode rest
      else if 0xE0 ≤ b && b ≤ 0xEF then
        match h1 : rest with
        | [] => [replChar]
        | c1 :: rest1 =>
            if (if b = 0xE0 then 0xA0 else 0x80) ≤ c1
                && c1 ≤ (if b = 0xED then 0x9F else 0xBF) then
              match h2 : rest1 with
              | [] => [replChar]
              | c2 :: rest2 =>
                  if isCont c2 then
                    Char.ofNat ((b - 0xE0) * 0x1000 + (c1 - 0x80) * 0x40
                      + (c2 - 0x80)) :: utf8Decode rest2
                  else replChar :: utf8Decode rest1
            else replChar :: utf8Decode rest
      else if 0xF0 ≤ b && b ≤ 0xF4 then
        match h1 : rest with
        | [] => [replChar]
        | c1 :: rest1 =>
            if (if b = 0xF0 then 0x90 else 0x80) ≤ c1
                && c1 ≤ (if b = 0xF4 then 0x8F else 0xBF) then
              match h2 : rest1 with
              | [] => [replChar]
              | c2 :: rest2 =>
                  if isCont c2 then
                    match h3 : rest2 with
                    | [] => [replChar]
                    | c3 :: rest3 =>
                        if isCont c3 then
                          Char.ofNat ((b - 0xF0) * 0x40000
                            + (c1 - 0x80) * 0x1000 + (c2 - 0x80) * 0x40
                            + (c3 - 0x80)) :: utf8Decode rest3
                        else replChar :: utf8Decode rest2
                  else replChar :: utf8Decode rest1
            else replChar :: utf8Decode rest
      else replChar :: utf8Decode rest
termination_by l => l.length
decreasing_by all_goals (subst_vars; simp; try omega)

/-- `Buffer.from(original, "latin1").toString("utf8")`: re-encode the
string's code units as Latin-1 bytes, then decode those bytes as UTF-8.
Neither step throws, so the `try { ... } catch {}` around this line in
`decodeFilename` never fires. -/
def latin1Utf8Recode (s : String) : String :=
  String.mk (utf8Decode (s.data.flatMap jsLatin1Bytes))

/-- The known mojibake marker characters tested by
`s.includes("Ã") || s.includes("×")`: U+00C3 and U+00D7. -/
def mojibakeMarkerA : Char := Char.ofNat 0xC3

/-- The second mojibake marker, U+00D7 (multiplication sign). -/
def mojibakeMarkerX : Char := Char.ofNat 0xD7

/-- The single loop of `score` (part_007 115–121), counting Hebrew-block
characters and replacement characters in one pass. The loop tests
`ch.charCodeAt(0)`, the first code unit: for a BMP character that is the
code point itself, and for an astral character it is a high surrogate
(`0xD800`–`0xDBFF`), which lies in neither tested range — so testing the
code point directly is equivalent. -/
def scoreCounts : List Char → Nat × Nat
  | [] => (0, 0)
  | c :: cs =>
      let hr := scoreCounts cs
      ((if 0x590 ≤ c.toNat && c.toNat ≤ 0x5FF then hr.1 + 1 else hr.1),
       (if c = replChar then hr.2 + 1 else hr.2))

/-- The `score` closure of `decodeFilename` (part_007 111–125):
`heb * 10 - repl * 5 - (s.includes("Ã") || s.includes("×") ? 2 : 0)`. -/
def score (s : String) : Int :=
  let hr := scoreCounts s.data
  (hr.1 : Int) * 10 - (hr.2 : Int) * 5 -
    (if s.data.contains mojibakeMarkerA || s.data.contains mojibakeMarkerX
     then 2 else 0)

/-- `decodeFilename` (part_007 98–129): score the original string and its
latin1→utf8 re-encoding, and return the re-encoding exactly when it
scores strictly higher. -/
def decodeFilename (s : String) : String :=
  let candidate1 := s
  let candidate2 := latin1Utf8Recode s
  if score candidate2 > score candidate1 then candidate2 else candidate1

-- ================================================================
-- Spec-level scoring (claim C9 wording) for the refinement theorem
-- ================================================================

/-- Spec-level count of characters in the Hebrew Unicode block
U+0590–U+05FF. -/
def hebCount (s : String) : Nat :=
  s.data.countP (fun c => 0x590 ≤ c.toNat && c.toNat ≤ 0x5FF)

/-- Spec-level count of replacement characters U+FFFD. -/
def replCount (s : String) : Nat :=
  s.data.count replChar

/-- Spec-level test for the known mojibake markers. -/
def hasMojibakeMarker (s : String) : Bool :=
  s.data.contains mojibakeMarkerA || s.data.contains mojibakeMarkerX

/-- The claim's scoring shape: Hebrew-block count weighted positively,
replacement-character count weighted negatively, and a fixed penalty when
a mojibake marker occurs. -/
def scoreSpec (wHeb wRepl wMark : Int) (s : String) : Int :=
  wHeb * hebCount s - wRepl * replCount s -
    (if hasMojibakeMarker s then wMark else 0)

-- ================================================================
-- Helper lemmas
-- ================================================================

/-- When `execution` is already in the validated range, the clamp inside
the derivation is the identity and the computation is exactly
`round(numericScope * (100 - execution) / 100)`. -/
theorem derivedRemaining_of_le (n e : Nat) (he : e ≤ 100) :
    derivedRemaining n e = jsRound (n * (100 - e)) 100 := by
  unfold derivedRemaining
  simp [Nat.min_eq_right he]

/-- Rows surviving a filter that removes every row with `f a = id`
cannot match `f a = id` again. -/
theorem filter_ne_filter_eq {α : Type} (f : α → Nat) (id : Nat)
    (l : List α) :
    (l.filter (fun a => f a != id)).filter (fun a => f a == id) = [] := by
  induction l with
  | nil => rfl
  | cons a t ih =>
      by_cases h : f a = id <;>
        simp [List.filter_cons, h, ih]

/-- `patchProject` on an existing project returns the cleaned patch
applied to the stored row. -/
theorem patchProject_ok (db : DB) (id : Nat) (data : UpdateData)
    (p0 : Project) (hfind : findProject db id = some p0) :
    patchProject db id data =
      .ok (applyCleanedPatch (derivePatchRemaining data) p0,
        { db with projects :=
            db.projects.map (fun q =>
              if q.id == id
              then applyCleanedPatch (derivePatchRemaining data) p0 else q) }) := by
  unfold patchProject
  rw [hfind]

-- ================================================================
-- Sample data used by witnesses and counterexamples
-- ================================================================

/-- A creation payload whose scope contains no digit at all. -/
def dataAbcScope : CreateData :=
  { name := "A", developer := none, listKind := .NEGOTIATION
    status := .ACTIVE, standard := none, units := none
    scopeValue := some "abc", startDate := none, execution := some 50
    remaining := none, initialAssignment := none, initialContacts := none }

/-- The spec's concrete example payload: scope `"₪1,000,000"`,
execution 30. -/
def dataMillion : CreateData :=
  { name := "Tower", developer := none, listKind := .NEGOTIATION
    status := .ACTIVE, standard := none, units := none
    scopeValue := some "₪1,000,000", startDate := none
    execution := some 30, remaining := none
    initialAssignment := none, initialContacts := none }

/-- The claim's scenario payload: `{name:"Alpha", scopeValue:"₪500,000",
execution:50}`. -/
def alphaData : CreateData :=
  { name := "Alpha", developer := none, listKind := .NEGOTIATION
    status := .ACTIVE, standard := none, units := none
    scopeValue := some "₪500,000", startDate := none
    execution := some 50, remaining := none
    initialAssignment := none, initialContacts := none }

/-- The scenario's follow-up patch `{execution: 80}`. -/
def patchExec80 : UpdateData :=
  { UpdateData.emptyPatch with execution := .val 80 }

/-- A patch carrying both scope and execution:
`{scopeValue:"₪500,000", execution:80}`. -/
def patchScopeExec : UpdateData :=
  { UpdateData.emptyPatch with
    scopeValue := .val "₪500,000"
    execution := .val 80 }

-- ================================================================
-- C1: derived remaining on create
-- ================================================================

/-- C1, counterexample: creating a project with the digitless scope
`"abc"` and execution 50 persists `remaining = "0"` — the derivation is
not skipped and `remaining` is not left unset, because stripping
non-digits yields `""` and `Number("")` is `0`, which passes the
`Number.isFinite` test. -/
theorem c1_counterexample :
    (createProject DB.empty dataAbcScope).1.remaining = some "0" ∧
    (createProject DB.empty dataAbcScope).1.remaining ≠ none := by
  constructor
  · rfl
  · decide

/-- C1 as amended: for every creation payload with no explicit
`remaining`, a `scopeValue` string and an `execution` number in [0,100],
the persisted `remaining` is always the string of
`round(numeric(scopeValue) * (100 - execution) / 100)` — including when
the scope contains no digits, in which case `numeric` parses the empty
strip as 0 and `remaining` becomes `"0"`; the derivation is never
skipped. The `2 ^ 53` bound keeps the exact model inside the range where
JavaScript float arithmetic is also exact. -/
theorem c1_remaining_always_derived (db : DB) (data : CreateData)
    (s : String) (e : Nat)
    (hrem : data.remaining = none) (hscope : data.scopeValue = some s)
    (hexec : data.execution = some e) (he : e ≤ 100)
    (_hbound : parseDigits s * 100 < 2 ^ 53) :
    (createProject db data).1.remaining
      = some (toString (jsRound (parseDigits s * (100 - e)) 100)) := by
  unfold createProject deriveCreateRemaining
  rw [hrem, hscope, hexec]
  simp [derivedRemaining_of_le _ _ he]

/-- Witness for C1 at the spec's own example: scope `"₪1,000,000"`,
execution 30 gives remaining `"700000"`. -/
theorem c1_remaining_always_derived_witness :
    dataMillion.remaining = none ∧ dataMillion.scopeValue = some "₪1,000,000" ∧
    dataMillion.execution = some 30 ∧ 30 ≤ 100 ∧
    parseDigits "₪1,000,000" * 100 < 2 ^ 53 ∧
    (createProject DB.empty dataMillion).1.remaining
      = some (toString (jsRound (parseDigits "₪1,000,000" * (100 - 30)) 100)) ∧
    (createProject DB.empty dataMillion).1.remaining = some "700000" := by
  refine ⟨rfl, rfl, rfl, by decide, by decide,
    c1_remaining_always_derived DB.empty dataMillion "₪1,000,000" 30
      rfl rfl rfl (by decide) (by decide), by decide⟩

-- ================================================================
-- C2: derived remaining on partial update
-- ================================================================

/-- The unclamped form of the derivation (the clamp is genuine only for
out-of-range executions, which validation excludes). -/
theorem derivedRemaining_eq (n e : Nat) :
    derivedRemaining n e = jsRound (n * (100 - Nat.min 100 e)) 100 := by
  unfold derivedRemaining
  simp

/-- The threshold literal is exactly `2 ^ 1024 - 2 ^ 970`. -/
theorem jsOverflowThreshold_eq :
    jsOverflowThreshold = 2 ^ 1024 - 2 ^ 970 := by
  norm_num [jsOverflowThreshold]

/-- A scope value small enough for exact double arithmetic is far below
the `Infinity` overflow threshold, so its parse is finite. -/
theorem jsFiniteParse_of_small (n : Nat) (h : n * 100 < 2 ^ 53) :
    jsFiniteParse n = true := by
  unfold jsFiniteParse
  simp only [decide_eq_true_eq]
  have h1 : (2 : Nat) ^ 53 < jsOverflowThreshold := by
    norm_num [jsOverflowThreshold]
  omega

/-- Spec-level rule of the amended C2: with no explicit `remaining` in the
patch, the stored `remaining` after the update is recomputed only when
the patch itself carries both a non-empty `scopeValue` string and a
non-null `execution`; otherwise it keeps its old value. -/
def expectedPatchedRemaining (data : UpdateData) (old : Option String) :
    Option String :=
  match data.scopeValue, data.execution with
  | .val s, .val e =>
      if s = "" then old
      else some (toString (jsRound (parseDigits s * (100 - Nat.min 100 e)) 100))
  | _, _ => old

/-- The database produced by the claim's create step. -/
def dbAlpha : DB := (createProject DB.empty alphaData).2

/-- The project row produced by the claim's create step. -/
def pAlpha : Project := (createProject DB.empty alphaData).1

/-- C2, counterexample: after creating the Alpha project (remaining
`"250000"`), the patch `{execution: 80}` — which does not include
`remaining` — leaves `remaining` at `"250000"` instead of recomputing it
to `"100000"`: the recomputation also requires `scopeValue` to be present
in the patch itself. -/
theorem c2_counterexample :
    pAlpha.remaining = some "250000" ∧
    patchExec80.remaining = FieldPatch.absent ∧
    (patchProject dbAlpha 1 patchExec80).toOption.map
        (fun r => r.1.remaining) = some (some "250000") ∧
    (patchProject dbAlpha 1 patchExec80).toOption.map
        (fun r => r.1.remaining) ≠ some (some "100000") := by
  refine ⟨rfl, rfl, rfl, by decide⟩

/-- C2 as amended: for every patch without an explicit `remaining` whose
scope, if a string, keeps the derivation inside the exact range of
JavaScript doubles (`parseDigits s * 100 < 2 ^ 53`, below which the Nat
model matches the program's float arithmetic exactly and the
`Number.isFinite` guard passes), the updated row's `remaining` follows
`expectedPatchedRemaining`: it is recomputed by the derived-remaining
rule exactly when the patch contains both a non-empty `scopeValue`
string and a non-null `execution`, and is left unchanged otherwise (in
particular a patch carrying only `execution` does not recompute it). -/
theorem c2_patch_recompute_rule (db : DB) (id : Nat) (data : UpdateData)
    (p0 p : Project) (db2 : DB)
    (hfind : findProject db id = some p0)
    (hrem : data.remaining = FieldPatch.absent)
    (hbound : match data.scopeValue with
      | FieldPatch.val s => parseDigits s * 100 < 2 ^ 53
      | _ => True)
    (hok : patchProject db id data = .ok (p, db2)) :
    p.remaining = expectedPatchedRemaining data p0.remaining := by
  rw [patchProject_ok db id data p0 hfind] at hok
  simp only [Except.ok.injEq, Prod.mk.injEq] at hok
  obtain ⟨hp, -⟩ := hok
  subst hp
  unfold expectedPatchedRemaining applyCleanedPatch derivePatchRemaining
    derivedPatchRemainingField
  cases hs : data.scopeValue <;> cases he : data.execution <;>
    simp [hrem, hs, he, FieldPatch.isPresent, FieldPatch.applyCleaned,
      derivedRemaining_eq]
  rw [hs] at hbound
  simp only [] at hbound
  simp [jsFiniteParse_of_small _ hbound]
  split_ifs <;> simp [FieldPatch.applyCleaned]

/-- Witness for C2: patching Alpha with
`{scopeValue:"₪500,000", execution:80}` (no explicit `remaining`, scope
well inside the exact range) recomputes `remaining` to `"100000"`. -/
theorem c2_patch_recompute_rule_witness :
    ∃ p db2, patchProject dbAlpha 1 patchScopeExec = Except.ok (p, db2) ∧
      p.remaining = expectedPatchedRemaining patchScopeExec pAlpha.remaining ∧
      p.remaining = some "100000" := by
  have hfind : findProject dbAlpha 1 = some pAlpha := rfl
  have hok := patchProject_ok dbAlpha 1 patchScopeExec pAlpha hfind
  exact ⟨_, _, hok,
    c2_patch_recompute_rule dbAlpha 1 patchScopeExec pAlpha _ _ hfind rfl
      (show parseDigits "₪500,000" * 100 < 2 ^ 53 by decide) hok,
    by decide⟩

-- ================================================================
-- C3 / C4: backup import atomicity and input validation
-- ================================================================

/-- A backup project object with nothing but a name. -/
def rawGood : RawProject :=
  { name := some "Kept", developer := none, listKind := none
    status := none, standard := none, units := none, scopeValue := none
    startDate := none, execution := none, remaining := none
    assignments := none, contacts := none }

/-- A backup project object missing its `name`, which makes the insert
throw mid-transaction. -/
def rawBad : RawProject := { rawGood with name := none }

/-- A database holding one pre-existing project. -/
def dbOne : DB :=
  { DB.empty with
    projects := [{ id := 1, name := "Original", developer := none
                   listKind := .SIGNED, status := .ACTIVE, standard := none
                   units := none, scopeValue := none, startDate := none
                   execution := none, remaining := none }]
    nextProjectId := 2 }

/-- C3: whenever a backup import with a well-formed `projects` array fails
(the handler responds 500), the database afterwards is exactly the
original pre-import database — the delete phase sits inside the same
transaction as the re-insertion, so the rollback target is the original
data, never the emptied or partially restored state. -/
theorem c3_import_failure_rollback (db : DB) (ps : List RawProject)
    (h : (importBackup db (.withProjects ps)).1 = .serverError) :
    (importBackup db (.withProjects ps)).2 = db := by
  cases hins : insertRawProjects (clearAll db) ps with
  | none => simp [importBackup, hins]
  | some v =>
      obtain ⟨db1, n⟩ := v
      simp [importBackup, hins] at h

/-- Witness for C3: importing a payload whose second project lacks a name
fails after the first project was already re-inserted, and the database
still equals the original. -/
theorem c3_import_failure_rollback_witness :
    (importBackup dbOne (.withProjects [rawGood, rawBad])).1
      = .serverError ∧
    (importBackup dbOne (.withProjects [rawGood, rawBad])).2 = dbOne :=
  ⟨by decide,
   c3_import_failure_rollback dbOne [rawGood, rawBad] (by decide)⟩

/-- C4: a backup import whose body is missing or whose `projects` field is
not an array is rejected with the invalid-format error before any delete
or insert, leaving the database exactly as it was. -/
theorem c4_invalid_backup_rejected (db : DB) (req : BackupReq)
    (h : req = .noBody ∨ req = .noProjects) :
    importBackup db req = (.invalidFormat, db) := by
  rcases h with h | h <;> subst h <;> rfl

/-- Witness for C4 on a non-empty database and a missing body. -/
theorem c4_invalid_backup_rejected_witness :
    (BackupReq.noBody = BackupReq.noBody ∨
      BackupReq.noBody = BackupReq.noProjects) ∧
    importBackup dbOne .noBody = (.invalidFormat, dbOne) :=
  ⟨Or.inl rfl, c4_invalid_backup_rejected dbOne _ (Or.inl rfl)⟩

-- ================================================================
-- C5: explicit null in a patch (code bug)
-- ================================================================

/-- A stored project whose `developer` is set. -/
def bobProject : Project :=
  { id := 1, name := "P", developer := some "Bob", listKind := .NEGOTIATION
    status := .ACTIVE, standard := none, units := none, scopeValue := none
    startDate := none, execution := none, remaining := none }

/-- A database holding `bobProject`. -/
def dbBob : DB :=
  { DB.empty with projects := [bobProject], nextProjectId := 2 }

/-- The patch `{"developer": null}`. -/
def patchDevNull : UpdateData :=
  { UpdateData.emptyPatch with developer := .null }

/-- C5, evaluated at the failing input: patching
`{"developer": null}` onto a project whose developer is `"Bob"` leaves the
stored developer equal to `"Bob"` — the handler rewrites the null to
`undefined` and Prisma then skips the column, so the field is NOT cleared,
contradicting both the claim and the handler's own comment that the
conversion makes Prisma unset the value. -/
theorem c5_null_patch_leaves_value :
    patchDevNull.developer = FieldPatch.null ∧
    (patchProject dbBob 1 patchDevNull).toOption.map
        (fun r => r.1.developer) = some (some "Bob") ∧
    (patchProject dbBob 1 patchDevNull).toOption.map
        (fun r => r.1.developer) ≠ some none := by
  refine ⟨rfl, rfl, by decide⟩

-- ================================================================
-- C6: frame property of partial updates
-- ================================================================

/-- Whether a patch makes the derived-remaining recomputation fire: both a
non-empty `scopeValue` string and a non-null `execution` are present. -/
def recomputeTriggers (data : UpdateData) : Bool :=
  match data.scopeValue, data.execution with
  | .val s, .val _ => s != ""
  | _, _ => false

/-- When the patch has no explicit `remaining` and the recomputation does
not fire, the derive step leaves the `remaining` key absent. -/
theorem derivedPatchRemainingField_of_not_triggers (data : UpdateData)
    (h1 : data.remaining = FieldPatch.absent)
    (h2 : recomputeTriggers data = false) :
    derivedPatchRemainingField data = FieldPatch.absent := by
  unfold recomputeTriggers at h2
  unfold derivedPatchRemainingField
  cases hs : data.scopeValue <;> cases he : data.execution <;>
    rw [hs, he] at h2 <;>
    simp [h1, hs, he, FieldPatch.isPresent]
  simp at h2
  simp [h2, h1]

/-- A stored project with an explicit `remaining` of `"999"`. -/
def p999 : Project :=
  { id := 1, name := "N", developer := none, listKind := .NEGOTIATION
    status := .ACTIVE, standard := none, units := none
    scopeValue := some "old", startDate := none, execution := none
    remaining := some "999" }

/-- A database holding `p999`. -/
def db999 : DB :=
  { DB.empty with projects := [p999], nextProjectId := 2 }

/-- A patch `{scopeValue:"100", execution:50}` that does not mention
`remaining`. -/
def patchScope100Exec50 : UpdateData :=
  { UpdateData.emptyPatch with
    scopeValue := .val "100"
    execution := .val 50 }

/-- C6, counterexample: the field `remaining` is absent from the patch
`{scopeValue:"100", execution:50}`, yet after the update it changed from
`"999"` to the recomputed `"50"` — so not every field absent from a patch
is unchanged. -/
theorem c6_counterexample :
    patchScope100Exec50.remaining = FieldPatch.absent ∧
    (patchProject db999 1 patchScope100Exec50).toOption.map
        (fun r => r.1.remaining) = some (some "50") ∧
    (patchProject db999 1 patchScope100Exec50).toOption.map
        (fun r => r.1.remaining) ≠ some (some "999") := by
  refine ⟨rfl, rfl, by decide⟩

/-- C6 as amended: for every partial update on an existing project, every
field absent from the patch keeps its prior value — with the single
exception of `remaining`, which additionally requires that the
derived-remaining recomputation does not fire (it fires exactly when the
patch carries a non-empty `scopeValue` string and a non-null
`execution`). -/
theorem c6_frame_rule (db : DB) (id : Nat) (data : UpdateData)
    (p0 p : Project) (db2 : DB)
    (hfind : findProject db id = some p0)
    (hok : patchProject db id data = .ok (p, db2)) :
    (data.name = none → p.name = p0.name) ∧
    (data.developer = .absent → p.developer = p0.developer) ∧
    (data.listKind = none → p.listKind = p0.listKind) ∧
    (data.status = none → p.status = p0.status) ∧
    (data.standard = .absent → p.standard = p0.standard) ∧
    (data.units = .absent → p.units = p0.units) ∧
    (data.scopeValue = .absent → p.scopeValue = p0.scopeValue) ∧
    (data.startDate = .absent → p.startDate = p0.startDate) ∧
    (data.execution = .absent → p.execution = p0.execution) ∧
    (data.remaining = .absent → recomputeTriggers data = false →
      p.remaining = p0.remaining) := by
  rw [patchProject_ok db id data p0 hfind] at hok
  simp only [Except.ok.injEq, Prod.mk.injEq] at hok
  obtain ⟨hp, -⟩ := hok
  subst hp
  refine ⟨fun h => ?_, fun h => ?_, fun h => ?_, fun h => ?_, fun h => ?_,
    fun h => ?_, fun h => ?_, fun h => ?_, fun h => ?_, fun h1 h2 => ?_⟩ <;>
    simp [applyCleanedPatch, derivePatchRemaining, FieldPatch.applyCleaned,
      *]
  simp [derivedPatchRemainingField_of_not_triggers data h1 h2,
    FieldPatch.applyCleaned]

/-- Witness for C6: a patch touching only `units` leaves every other field
of the stored project unchanged. -/
theorem c6_frame_rule_witness :
    ∃ p db2,
      patchProject db999 1 { UpdateData.emptyPatch with units := .val 7 }
        = Except.ok (p, db2) ∧
      p.name = p999.name ∧ p.developer = p999.developer ∧
      p.scopeValue = p999.scopeValue ∧ p.remaining = p999.remaining := by
  have hfind : findProject db999 1 = some p999 := rfl
  have hok := patchProject_ok db999 1
    { UpdateData.emptyPatch with units := .val 7 } p999 hfind
  have hc := c6_frame_rule db999 1
    { UpdateData.emptyPatch with units := .val 7 } p999 _ _ hfind hok
  exact ⟨_, _, hok, hc.1 rfl, hc.2.1 rfl, hc.2.2.2.2.2.2.1 rfl,
    hc.2.2.2.2.2.2.2.2.2 rfl rfl⟩

-- ================================================================
-- C7: delete removes all owned assignments and contacts
-- ================================================================

/-- C7: whenever `DELETE /projects/:id` succeeds, no assignment and no
contact owned by that project survives: filtering either table by the
deleted project id afterwards yields the empty list (so the child listing
endpoints return empty). -/
theorem c7_delete_cascades (db : DB) (id : Nat)
    (h : db.projects.any (fun p => p.id == id) = true) :
    ∃ db2, deleteProject db id = some db2 ∧
      db2.assignments.filter (fun a => a.projectId == id) = [] ∧
      db2.contacts.filter (fun c => c.projectId == id) = [] := by
  unfold deleteProject
  rw [h]
  exact ⟨_, rfl,
    filter_ne_filter_eq (fun a => a.projectId) id db.assignments,
    filter_ne_filter_eq (fun c => c.projectId) id db.contacts⟩

/-- A database with two projects, assignments and contacts on both. -/
def dbFull : DB :=
  { projects :=
      [{ id := 1, name := "One", developer := none, listKind := .NEGOTIATION
         status := .ACTIVE, standard := none, units := none
         scopeValue := none, startDate := none, execution := none
         remaining := none },
       { id := 2, name := "Two", developer := none, listKind := .SIGNED
         status := .ACTIVE, standard := none, units := none
         scopeValue := none, startDate := none, execution := none
         remaining := none }]
    assignments :=
      [{ id := 1, projectId := 1, title := "T1", notes := none
         assigneeName := none, dueDate := none, status := .TODO },
       { id := 2, projectId := 2, title := "T2", notes := none
         assigneeName := none, dueDate := none, status := .TODO }]
    contacts :=
      [{ id := 1, projectId := 1, name := "C1", phone := some "050" }]
    files := []
    nextProjectId := 3, nextAssignmentId := 3, nextContactId := 2 }

/-- Witness for C7 on a database where project 1 owns an assignment and a
contact. -/
theorem c7_delete_cascades_witness :
    ∃ db2, deleteProject dbFull 1 = some db2 ∧
      db2.assignments.filter (fun a => a.projectId == 1) = [] ∧
      db2.contacts.filter (fun c => c.projectId == 1) = [] :=
  c7_delete_cascades dbFull 1 (by decide)

-- ================================================================
-- C8: parent-existence check asymmetry between contacts and
-- assignments
-- ================================================================

/-- C8: with a well-formed body and a project id that matches no stored
project, the contact handler (`index.ts` 190–214) answers the explicit
not-found result and inserts nothing, while the assignment handler
performs no such parent-existence lookup — its insert runs into the
foreign key and is reported as the generic bad-request failure, never as
not-found. -/
theorem c8_contact_checks_parent_assignment_does_not
    (db : DB) (id : Nat) (cb : ContactReq) (ab : AssignmentReq)
    (hmiss : db.projects.any (fun p => p.id == id) = false)
    (hname : ∃ nm, cb.name = some nm ∧ nm.length ≠ 0)
    (htitle : ∃ t, ab.title = some t ∧ t.length ≠ 0) :
    createContact db id cb = (.notFound, db) ∧
    createAssignment db id ab = (.badRequest, db) ∧
    (createAssignment db id ab).1 ≠ ChildOutcome.notFound := by
  obtain ⟨nm, hnm, hnmlen⟩ := hname
  obtain ⟨t, ht, htlen⟩ := htitle
  refine ⟨?_, ?_, ?_⟩ <;>
    simp [createContact, createAssignment, hnm, ht, hnmlen, htlen, hmiss]

/-- The contact body used by the C8 witness. -/
def cbDana : ContactReq := { name := some "Dana", phone := none }

/-- The assignment body used by the C8 witness. -/
def abCall : AssignmentReq :=
  { title := some "Call", notes := none, assigneeName := none
    dueDate := none }

/-- Witness for C8 on the empty database and project id 5. -/
theorem c8_contact_checks_parent_assignment_does_not_witness :
    createContact DB.empty 5 cbDana = (.notFound, DB.empty) ∧
    createAssignment DB.empty 5 abCall = (.badRequest, DB.empty) ∧
    (createAssignment DB.empty 5 abCall).1 ≠ ChildOutcome.notFound :=
  c8_contact_checks_parent_assignment_does_not DB.empty 5 cbDana abCall
    (by decide) ⟨"Dana", rfl, by decide⟩ ⟨"Call", rfl, by decide⟩

-- ================================================================
-- C9 / C10: filename recovery
-- ================================================================

/-- The one-pass counting loop computes the Hebrew-block count and the
replacement-character count. -/
theorem scoreCounts_eq (l : List Char) :
    scoreCounts l
      = (l.countP (fun c => 0x590 ≤ c.toNat && c.toNat ≤ 0x5FF),
         l.count replChar) := by
  induction l with
  | nil => rfl
  | cons c t ih =>
      simp [scoreCounts, ih, List.countP_cons, List.count_cons,
        Prod.ext_iff]
      constructor <;> split_ifs <;> simp_all

/-- The code's score is the claim's scoring shape at weights 10, 5, 2. -/
theorem score_eq_scoreSpec (s : String) : score s = scoreSpec 10 5 2 s := by
  unfold score scoreSpec hebCount replCount hasMojibakeMarker
  rw [scoreCounts_eq]
  split_ifs <;> ring

/-- C9: there are positive weights (one per Hebrew-block character, one
per replacement character, and one fixed mojibake-marker penalty) such
that for every filename the recovery function scores the original and the
latin1→utf8 re-encoded candidate by that rule and returns the candidate
exactly when its score is strictly higher. -/
theorem c9_filename_scoring_refinement :
    ∃ wHeb wRepl wMark : Int, 0 < wHeb ∧ 0 < wRepl ∧ 0 < wMark ∧
      ∀ s : String,
        decodeFilename s =
          if scoreSpec wHeb wRepl wMark (latin1Utf8Recode s)
              > scoreSpec wHeb wRepl wMark s
          then latin1Utf8Recode s else s := by
  refine ⟨10, 5, 2, by norm_num, by norm_num, by norm_num, fun s => ?_⟩
  simp [decodeFilename, score_eq_scoreSpec]

/-- Latin-1 encoding of an ASCII character is its own single byte. -/
theorem jsLatin1Bytes_ascii (c : Char) (h : c.toNat ≤ 0x7F) :
    jsLatin1Bytes c = [c.toNat] := by
  unfold jsLatin1Bytes
  have h1 : c.toNat < 0x10000 := by omega
  simp [h1, Nat.mod_eq_of_lt (show c.toNat < 256 by omega)]

/-- UTF-8 decoding of the Latin-1 bytes of an ASCII string restores the
string. -/
theorem utf8Decode_ascii (l : List Char) (h : ∀ c ∈ l, c.toNat ≤ 0x7F) :
    utf8Decode (l.flatMap jsLatin1Bytes) = l := by
  induction l with
  | nil => simp [utf8Decode.eq_def]
  | cons c t ih =>
      have hc := h c (List.mem_cons_self c t)
      have ht : ∀ x ∈ t, x.toNat ≤ 0x7F :=
        fun x hx => h x (List.mem_cons_of_mem c hx)
      rw [List.flatMap_cons, jsLatin1Bytes_ascii c hc, List.singleton_append,
        utf8Decode.eq_def]
      simp [hc, ih ht]

/-- C10: on an all-ASCII filename the latin1→utf8 re-encoding is the
identity, the two candidates score equally, and the recovery function
returns the original unchanged. -/
theorem c10_ascii_identity (s : String)
    (h : ∀ c ∈ s.data, c.toNat ≤ 0x7F) :
    latin1Utf8Recode s = s ∧ score (latin1Utf8Recode s) = score s ∧
    decodeFilename s = s := by
  have h1 : latin1Utf8Recode s = s := by
    unfold latin1Utf8Recode
    rw [utf8Decode_ascii s.data h]
  refine ⟨h1, by rw [h1], ?_⟩
  simp [decodeFilename, h1]

/-- Witness for C10 at the ASCII filename `"report.pdf"`. -/
theorem c10_ascii_identity_witness :
    (∀ c ∈ "report.pdf".data, c.toNat ≤ 0x7F) ∧
    latin1Utf8Recode "report.pdf" = "report.pdf" ∧
    score (latin1Utf8Recode "report.pdf") = score "report.pdf" ∧
    decodeFilename "report.pdf" = "report.pdf" :=
  ⟨by decide, c10_ascii_identity "report.pdf" (by decide)⟩

end ProjectTracker
